import Mathlib

/-!
Verification of the ConvoFlow repository's specification.

The repository snapshot contains the Next.js front-end (chat page, lobby
page) and two LiveKit token API routes. The Python agent backend
(`echo_agent.py`: command classifier, memory retrieval engine,
conversation orchestrator) is referenced by the README and the spec but
its source is not in the snapshot, so those components are modelled from
the spec's words and marked as such in their doc comments. The API routes
and the chat page are embedded directly from their TypeScript source.
-/

namespace ConvoFlow

/-! ## Command classifier (spec §4.1) -/

/-- Result of classifying one inbound text message. -/
inductive Command where
  | normalMessage (text : String)
  | dumpMemories
  | clearMemory
deriving DecidableEq, Repr

/-- Modelled from the spec: the alias set that maps to `DumpMemories`
("dump memories", "show all", "list memories"); the backend source
(`echo_agent.py`) is not in the snapshot. -/
def dumpAliases : List String := ["dump memories", "show all", "list memories"]

/-- Modelled from the spec: the alias that maps to `ClearMemory`. -/
def clearAlias : String := "clear memory"

/-- Leading and trailing whitespace characters removed from a character
list (the character-level meaning of String.trim). -/
def trimChars (l : List Char) : List Char :=
  ((l.dropWhile Char.isWhitespace).reverse.dropWhile Char.isWhitespace).reverse

/-- Whitespace-trimmed, case-folded form of a string: the normalization
the spec prescribes before matching the command vocabulary. -/
def normalize (s : String) : String :=
  ⟨trimChars (s.data.map Char.toLower)⟩

/-- Modelled from the spec: `classify(text) -> Command` is a pure total
function doing a case-insensitive, whitespace-trimmed match against the
fixed vocabulary; anything else maps to `NormalMessage(text)` with the
original text preserved verbatim. The backend source is not in the
snapshot. -/
def classify (text : String) : Command :=
  let t := normalize text
  if t ∈ dumpAliases then .dumpMemories
  else if t = clearAlias then .clearMemory
  else .normalMessage text

/-- C2: the classifier is total and deterministic (it is a function, and
every input yields exactly one variant); every input whose trimmed,
case-folded form equals one of the dump aliases maps to `DumpMemories`,
and every input whose trimmed, case-folded form equals "clear memory"
maps to `ClearMemory`. -/
theorem C2_classifier_aliases (s : String) :
    (∃! c, classify s = c) ∧
    (normalize s ∈ dumpAliases → classify s = .dumpMemories) ∧
    (normalize s = clearAlias → classify s = .clearMemory) := by
  refine ⟨⟨classify s, rfl, fun c hc => hc.symm⟩, ?_, ?_⟩
  · intro h
    simp [classify, h]
  · intro h
    have hnot : clearAlias ∉ dumpAliases := by decide
    simp [classify, h, hnot]

/-- Witness for C2 at concrete inputs: a case-varied, whitespace-padded
dump alias and a case-varied clear alias. -/
theorem C2_classifier_aliases_witness :
    classify "  DUMP Memories " = .dumpMemories ∧
    classify " Clear MEMORY" = .clearMemory :=
  ⟨(C2_classifier_aliases "  DUMP Memories ").2.1 (by decide),
   (C2_classifier_aliases " Clear MEMORY").2.2 (by decide)⟩

/-- C3: every input that matches no command alias (after trimming and
case folding) is classified as `NormalMessage` carrying the original
input text verbatim. -/
theorem C3_normal_message_verbatim (s : String)
    (h1 : normalize s ∉ dumpAliases)
    (h2 : normalize s ≠ clearAlias) :
    classify s = .normalMessage s := by
  simp [classify, h1, h2]

/-- Witness for C3 at a concrete non-command input, whose case and
whitespace are preserved in the result. -/
theorem C3_normal_message_verbatim_witness :
    classify "  Hello There! " = .normalMessage "  Hello There! " :=
  C3_normal_message_verbatim "  Hello There! " (by decide) (by decide)

/-! ## Memory model and retrieval engine (spec §3, §4.2) -/

/-- One stored fact/exchange, owned by the external memory store
(spec §3 data model). The relevance score is assigned at query time. -/
structure MemoryRecord where
  id : String
  userId : String
  content : String
  createdAt : Nat
  relevanceScore : Int
deriving DecidableEq, Repr

/-- Interface of the external memory service as the spec's adapter sees
it: search scoped to a user with a limit, an unfiltered bounded slice of
all memories, and deletion of all memories for a user. Calls can fail
(network error, rate limit), modelled as `Except`. -/
structure MemoryAdapter where
  search : String → String → Nat → Except String (List MemoryRecord)
  getAll : String → Nat → Except String (List MemoryRecord)
  deleteAll : String → Except String Unit

/-- Modelled from the spec: the retrieval top-K configuration constant
(the spec gives 5 as the example value). -/
def retrievalTopK : Nat := 5

/-- Modelled from the spec: the bound on the comprehensive-fallback
slice of all memories. -/
def comprehensiveCap : Nat := 10

/-- Modelled from the spec: the fixed identity/preference-oriented query
terms used by the tier-2 fallback. -/
def preferenceQuery : String := "user preferences user identity"

/-- Records produced by one adapter call: an error degrades to the empty
list (the engine never raises past its boundary). -/
def tierResult (r : Except String (List MemoryRecord)) : List MemoryRecord :=
  match r with
  | .ok l => l
  | .error _ => []

/-- Whether one adapter call yielded at least one usable record; errors
and empty results are both misses. -/
def tierHit (r : Except String (List MemoryRecord)) : Bool :=
  match r with
  | .ok (_ :: _) => true
  | _ => false

/-- Result of one retrieval: the context records plus the tier numbers
that were attempted, in order, for diagnostics. -/
structure RetrievalOutcome where
  records : List MemoryRecord
  tiersAttempted : List Nat
deriving DecidableEq, Repr

/-- Modelled from the spec: `retrieve(userId, utterance)` evaluates the
three tiers in order — contextual search, preference/identity fallback,
comprehensive fallback — short-circuiting at the first tier that yields
at least one record, and degrading to an empty context when the adapter
fails or every tier is empty. The backend source is not in the
snapshot. -/
def retrieve (a : MemoryAdapter) (userId utterance : String) : RetrievalOutcome :=
  let r1 := a.search userId utterance retrievalTopK
  if tierHit r1 then ⟨tierResult r1, [1]⟩
  else
    let r2 := a.search userId preferenceQuery retrievalTopK
    if tierHit r2 then ⟨tierResult r2, [1, 2]⟩
    else
      let r3 := a.getAll userId comprehensiveCap
      if tierHit r3 then ⟨tierResult r3, [1, 2, 3]⟩
      else ⟨[], [1, 2, 3]⟩

/-- C1: retrieval evaluates its tiers in the fixed order 1, 2, 3 and
short-circuits at the first tier with at least one record: a tier-1 hit
attempts only tier 1; a tier-2 hit attempts exactly tiers 1 then 2; a
tier-3 hit attempts exactly tiers 1, 2, 3; and when the adapter fails or
every tier is empty the engine attempts all three tiers and returns the
empty context — it is a total function, so no error escapes its
boundary. -/
theorem C1_retrieve_tiered_fallback (a : MemoryAdapter) (u utt : String) :
    (tierHit (a.search u utt retrievalTopK) = true →
      retrieve a u utt =
        ⟨tierResult (a.search u utt retrievalTopK), [1]⟩) ∧
    (tierHit (a.search u utt retrievalTopK) = false →
      tierHit (a.search u preferenceQuery retrievalTopK) = true →
      retrieve a u utt =
        ⟨tierResult (a.search u preferenceQuery retrievalTopK), [1, 2]⟩) ∧
    (tierHit (a.search u utt retrievalTopK) = false →
      tierHit (a.search u preferenceQuery retrievalTopK) = false →
      tierHit (a.getAll u comprehensiveCap) = true →
      retrieve a u utt =
        ⟨tierResult (a.getAll u comprehensiveCap), [1, 2, 3]⟩) ∧
    (tierHit (a.search u utt retrievalTopK) = false →
      tierHit (a.search u preferenceQuery retrievalTopK) = false →
      tierHit (a.getAll u comprehensiveCap) = false →
      retrieve a u utt = ⟨[], [1, 2, 3]⟩) := by
  refine ⟨?_, ?_, ?_, ?_⟩ <;> intros <;> simp_all [retrieve]

/-- Witness for C1: an adapter that always fails makes retrieval attempt
all three tiers and return the empty context. -/
theorem C1_retrieve_tiered_fallback_witness :
    retrieve ⟨fun _ _ _ => .error "down", fun _ _ => .error "down",
        fun _ => .error "down"⟩ "user-1" "hello" = ⟨[], [1, 2, 3]⟩ :=
  (C1_retrieve_tiered_fallback
    ⟨fun _ _ _ => .error "down", fun _ _ => .error "down",
      fun _ => .error "down"⟩ "user-1" "hello").2.2.2 rfl rfl rfl

/-! ## Memory store state model (for ClearMemory idempotence) -/

/-- State of the external memory store: the records held for each user
id. -/
def MemoryStore := String → List MemoryRecord

/-- Outcome of one delete-all call against the store: how many records
it observed and deleted, whether it succeeded, and the store
afterwards. -/
structure DeleteOutcome where
  deletedCount : Nat
  ok : Bool
  store : MemoryStore

/-- Modelled from the spec: `deleteAll(userId)` removes every memory for
that user and succeeds; observing zero memories to delete is a success,
not an error. The backend source is not in the snapshot. -/
def deleteAllOp (u : String) (st : MemoryStore) : DeleteOutcome :=
  { deletedCount := (st u).length
    ok := true
    store := fun v => if v = u then [] else st v }

/-- C5: ClearMemory is idempotent — for every user id and store state,
deleting all memories twice in succession succeeds both times, and the
second call observes zero memories to delete. -/
theorem C5_clear_memory_idempotent (u : String) (st : MemoryStore) :
    (deleteAllOp u st).ok = true ∧
    (deleteAllOp u (deleteAllOp u st).store).ok = true ∧
    (deleteAllOp u (deleteAllOp u st).store).deletedCount = 0 := by
  simp [deleteAllOp]

/-! ## Conversation orchestrator (spec §4.3) -/

/-- One user-utterance/agent-reply pair pending write-back (spec §3). -/
structure Exchange where
  userId : String
  userText : String
  agentText : String
  timestamp : Nat
deriving DecidableEq, Repr

/-- Observable side effects of processing one inbound message, in the
order the orchestrator issues them: adapter calls and the outbound
transport send. -/
inductive Event where
  | searchCall (userId query : String)
  | getAllCall (userId : String)
  | completeCall (systemPrompt contextText userText : String)
  | sendReply (text : String)
  | storeCall (userId : String) (ex : Exchange)
  | deleteAllCall (userId : String)
deriving DecidableEq, Repr

/-- Interface of the external language-model service: can fail (network
error, rate limit, timeout), modelled as `Except`. -/
def CompletionAdapter : Type := String → String → String → Except String String

/-- Modelled from the spec: the fixed degraded-service reply substituted
on completion failure (the spec's example text). -/
def degradedReply : String := "I\x27m having trouble right now, please try again"

/-- Modelled from the spec: the confirmation acknowledging a successful
memory reset. -/
def clearConfirmation : String := "Memory cleared. Starting fresh!"

/-- Modelled from the spec: the fixed system framing of the prompt. -/
def systemFraming : String := "You are a helpful assistant with memory of the user."

/-- Context text assembled from the retrieved memory records. -/
def contextText (recs : List MemoryRecord) : String :=
  String.intercalate "; " (recs.map (fun r => r.content))

/-- Human-readable listing of memories for the DumpMemories reply. -/
def formatMemoryList (recs : List MemoryRecord) : String :=
  String.intercalate "; " (recs.map (fun r => "- " ++ r.content))

/-- Adapter-call events issued by one retrieval, reconstructed from the
tiers it attempted, in order. -/
def retrievalEvents (userId utterance : String) (tiers : List Nat) : List Event :=
  tiers.map (fun t =>
    if t = 1 then .searchCall userId utterance
    else if t = 2 then .searchCall userId preferenceQuery
    else .getAllCall userId)

/-- Modelled from the spec: the orchestrator's transition on one inbound
message. It classifies the text; on DumpMemories it lists all memories
with no completion call and no write-back; on ClearMemory it requests
deletion of all memories and replies with a confirmation on success or
the degraded-service message on failure, with no completion call; on
NormalMessage it retrieves memory context, calls the completion adapter,
and on success sends the model reply and only then issues the exchange
write-back, while on completion failure it sends the fixed
degraded-service reply and issues no write-back. Returns the reply text
and the ordered list of side effects. The backend source is not in the
snapshot. -/
def processMessage (mem : MemoryAdapter) (comp : CompletionAdapter)
    (userId text : String) (now : Nat) : String × List Event :=
  match classify text with
  | .dumpMemories =>
      let recs := tierResult (mem.getAll userId comprehensiveCap)
      let reply := formatMemoryList recs
      (reply, [.getAllCall userId, .sendReply reply])
  | .clearMemory =>
      match mem.deleteAll userId with
      | .ok _ =>
          (clearConfirmation,
            [.deleteAllCall userId, .sendReply clearConfirmation])
      | .error _ =>
          (degradedReply, [.deleteAllCall userId, .sendReply degradedReply])
  | .normalMessage msg =>
      let ro := retrieve mem userId msg
      let ctx := contextText ro.records
      let rEvents := retrievalEvents userId msg ro.tiersAttempted
      match comp systemFraming ctx msg with
      | .ok reply =>
          (reply,
            rEvents ++ [.completeCall systemFraming ctx msg,
              .sendReply reply,
              .storeCall userId ⟨userId, msg, reply, now⟩])
      | .error _ =>
          (degradedReply,
            rEvents ++ [.completeCall systemFraming ctx msg,
              .sendReply degradedReply])

/-- C4: on a message classified ClearMemory the orchestrator issues the
memory adapter's deleteAll call for that user id, makes no completion
call, and replies with the reset confirmation on success or the
degraded-service message on failure. -/
theorem C4_clear_memory_flow (mem : MemoryAdapter) (comp : CompletionAdapter)
    (userId text : String) (now : Nat)
    (h : classify text = .clearMemory) :
    Event.deleteAllCall userId ∈ (processMessage mem comp userId text now).2 ∧
    (∀ p c u, Event.completeCall p c u ∉ (processMessage mem comp userId text now).2) ∧
    (mem.deleteAll userId = .ok () →
      (processMessage mem comp userId text now).1 = clearConfirmation) ∧
    (∀ e, mem.deleteAll userId = .error e →
      (processMessage mem comp userId text now).1 = degradedReply) := by
  rcases hdel : mem.deleteAll userId with u | e
  · simp [processMessage, h, hdel]
  · simp [processMessage, h, hdel]

/-- Witness for C4: a concrete adapter whose deleteAll succeeds, on the
input "clear memory". -/
theorem C4_clear_memory_flow_witness :
    (processMessage
        ⟨fun _ _ _ => .ok [], fun _ _ => .ok [], fun _ => .ok ()⟩
        (fun _ _ _ => .ok "hi") "user-1" "clear memory" 0).1
      = clearConfirmation :=
  (C4_clear_memory_flow
      ⟨fun _ _ _ => .ok [], fun _ _ => .ok [], fun _ => .ok ()⟩
      (fun _ _ _ => .ok "hi") "user-1" "clear memory" 0
      (by decide)).2.2.1 rfl

/-- C6: when the completion adapter fails on a NormalMessage (timeouts
included — the orchestrator treats a timeout as any other failure), the
reply is the fixed degraded-service text and no exchange write-back is
issued. -/
theorem C6_completion_failure_degrades (mem : MemoryAdapter)
    (comp : CompletionAdapter) (userId text : String) (now : Nat) (e : String)
    (h : classify text = .normalMessage text)
    (hc : comp systemFraming
        (contextText (retrieve mem userId text).records) text = .error e) :
    (processMessage mem comp userId text now).1 = degradedReply ∧
    (∀ u ex, Event.storeCall u ex ∉ (processMessage mem comp userId text now).2) := by
  constructor
  · simp [processMessage, h, hc]
  · intro u ex
    simp [processMessage, h, hc, retrievalEvents]
    intro t _
    by_cases h1 : t = 1
    · simp [h1]
    · by_cases h2 : t = 2 <;> simp [h1, h2]

/-- Witness for C6: a failing completion adapter on the input "hello"
yields the degraded reply. -/
theorem C6_completion_failure_degrades_witness :
    (processMessage
        ⟨fun _ _ _ => .error "down", fun _ _ => .error "down", fun _ => .ok ()⟩
        (fun _ _ _ => .error "timeout") "user-1" "hello" 0).1 = degradedReply :=
  (C6_completion_failure_degrades
      ⟨fun _ _ _ => .error "down", fun _ _ => .error "down", fun _ => .ok ()⟩
      (fun _ _ _ => .error "timeout") "user-1" "hello" 0 "timeout"
      (by decide) rfl).1

/-- C7: on a successfully answered NormalMessage the reply dispatch to
the transport occurs strictly before the memory write-back in the
orchestrator's effect order — the event list is some prefix followed by
the send event and only then the store event, so the reply is never
delayed behind the store call. -/
theorem C7_reply_before_writeback (mem : MemoryAdapter)
    (comp : CompletionAdapter) (userId text : String) (now : Nat) (reply : String)
    (h : classify text = .normalMessage text)
    (hc : comp systemFraming
        (contextText (retrieve mem userId text).records) text = .ok reply) :
    ∃ pre, (processMessage mem comp userId text now).2 =
      pre ++ [Event.sendReply reply,
        Event.storeCall userId ⟨userId, text, reply, now⟩] := by
  refine ⟨retrievalEvents userId text (retrieve mem userId text).tiersAttempted ++
    [Event.completeCall systemFraming
      (contextText (retrieve mem userId text).records) text], ?_⟩
  simp [processMessage, h, hc]

/-- Witness for C7: with an always-failing memory adapter and a fixed
completion reply on the input "hello", the effect list ends with the
send followed by the store. -/
theorem C7_reply_before_writeback_witness :
    ∃ pre, (processMessage
        ⟨fun _ _ _ => .error "down", fun _ _ => .error "down", fun _ => .ok ()⟩
        (fun _ _ _ => .ok "hi there") "user-1" "hello" 0).2 =
      pre ++ [Event.sendReply "hi there",
        Event.storeCall "user-1" ⟨"user-1", "hello", "hi there", 0⟩] :=
  C7_reply_before_writeback
    ⟨fun _ _ _ => .error "down", fun _ _ => .error "down", fun _ => .ok ()⟩
    (fun _ _ _ => .ok "hi there") "user-1" "hello" 0 "hi there"
    (by decide) rfl

/-! ## LiveKit token API routes (embedded from the TypeScript source) -/

/-- JavaScript truthiness of an optional string field: absent (undefined
or null) and the empty string are falsy. -/
def truthyStr : Option String → Bool
  | some s => !(s == "")
  | none => false

/-- Parsed JSON body of a POST to the token endpoint: the room and
username fields, absent when the body lacks them. -/
structure TokenRequest where
  room : Option String
  username : Option String
deriving DecidableEq, Repr

/-- The LiveKit credentials visible in the process environment. -/
structure LiveKitEnv where
  apiKey : Option String
  apiSecret : Option String
deriving DecidableEq, Repr

/-- The access token the route constructs: identity and name are the
username, the grant names the room and allows joining, publishing,
publishing data and subscribing. -/
structure AccessGrant where
  identity : String
  name : String
  room : String
  roomJoin : Bool
  canPublish : Bool
  canPublishData : Bool
  canSubscribe : Bool
deriving DecidableEq, Repr

/-- HTTP response of the token route: status, optional error text, and
the constructed token when one exists. -/
structure ApiResponse where
  status : Nat
  error : Option String
  token : Option AccessGrant
deriving DecidableEq, Repr

/-- The token route's POST handler: rejects a body without truthy room
and username with 400 "Room and Username Required"; rejects missing
credentials with 500 "Server configuration error"; otherwise constructs
the access token and returns it with status 200. -/
def tokenRoutePOST (env : LiveKitEnv) (body : TokenRequest) : ApiResponse :=
  if !truthyStr body.room || !truthyStr body.username then
    { status := 400, error := some "Room and Username Required", token := none }
  else if !truthyStr env.apiKey || !truthyStr env.apiSecret then
    { status := 500, error := some "Server configuration error", token := none }
  else
    { status := 200, error := none,
      token := some
        { identity := body.username.getD "", name := body.username.getD "",
          room := body.room.getD "", roomJoin := true, canPublish := true,
          canPublishData := true, canSubscribe := true } }

/-- The debug variant of the token route's POST handler: besides console
logging and JWT payload inspection, which have no effect on the
response, it performs the same checks in the same order and builds the
same token. -/
def tokenRouteDebugPOST (env : LiveKitEnv) (body : TokenRequest) : ApiResponse :=
  if !truthyStr body.room || !truthyStr body.username then
    { status := 400, error := some "Room and Username Required", token := none }
  else if !truthyStr env.apiKey || !truthyStr env.apiSecret then
    { status := 500, error := some "Server configuration error", token := none }
  else
    { status := 200, error := none,
      token := some
        { identity := body.username.getD "", name := body.username.getD "",
          room := body.room.getD "", roomJoin := true, canPublish := true,
          canPublishData := true, canSubscribe := true } }

/-- C8 counterexample: with the LiveKit credentials absent from the
environment, the token route still serves a well-formed request — it
returns a per-request HTTP 500 "Server configuration error" response
(the debug route likewise) — so missing credentials are not a fatal
startup error and the process does start serving requests, contrary to
the claim. -/
theorem C8_counterexample_served_with_missing_credentials :
    tokenRoutePOST ⟨none, none⟩ ⟨some "chat-room", some "alice"⟩ =
      ⟨500, some "Server configuration error", none⟩ ∧
    tokenRouteDebugPOST ⟨none, none⟩ ⟨some "chat-room", some "alice"⟩ =
      ⟨500, some "Server configuration error", none⟩ := by
  constructor <;> rfl

/-- C8 amended: missing credentials are detected per request, not at
startup — for every request whose body carries a truthy room and
username, if either credential is absent or empty the token routes
return HTTP 500 with "Server configuration error" and construct no
access token, and the process keeps serving requests. -/
theorem C8_missing_credentials_per_request (env : LiveKitEnv) (body : TokenRequest)
    (hr : truthyStr body.room = true) (hu : truthyStr body.username = true)
    (hcred : truthyStr env.apiKey = false ∨ truthyStr env.apiSecret = false) :
    tokenRoutePOST env body = ⟨500, some "Server configuration error", none⟩ ∧
    tokenRouteDebugPOST env body = ⟨500, some "Server configuration error", none⟩ := by
  rcases hcred with hc | hc <;>
    simp [tokenRoutePOST, tokenRouteDebugPOST, hr, hu, hc]

/-- Witness for the amended C8 at a concrete request and an environment
with no credentials. -/
theorem C8_missing_credentials_per_request_witness :
    tokenRoutePOST ⟨none, some "secret"⟩ ⟨some "chat-room", some "alice"⟩ =
      ⟨500, some "Server configuration error", none⟩ :=
  (C8_missing_credentials_per_request ⟨none, some "secret"⟩
      ⟨some "chat-room", some "alice"⟩ rfl rfl (Or.inl rfl)).1

/-- C9: every POST body lacking a truthy room or a truthy username gets
HTTP 400 with error "Room and Username Required" and no access token is
constructed, from both token routes. -/
theorem C9_missing_fields_rejected (env : LiveKitEnv) (body : TokenRequest)
    (h : truthyStr body.room = false ∨ truthyStr body.username = false) :
    tokenRoutePOST env body = ⟨400, some "Room and Username Required", none⟩ ∧
    tokenRouteDebugPOST env body = ⟨400, some "Room and Username Required", none⟩ := by
  rcases h with h | h <;> simp [tokenRoutePOST, tokenRouteDebugPOST, h]

/-- Witness for C9 at a concrete body with an empty username (falsy in
JavaScript) and a present room. -/
theorem C9_missing_fields_rejected_witness :
    tokenRoutePOST ⟨some "key", some "secret"⟩ ⟨some "chat-room", some ""⟩ =
      ⟨400, some "Room and Username Required", none⟩ :=
  (C9_missing_fields_rejected ⟨some "key", some "secret"⟩
      ⟨some "chat-room", some ""⟩ (Or.inr rfl)).1

/-! ## Chat page send handler (embedded from the TypeScript source) -/

/-- Whitespace-trimmed form of a string (the JavaScript trim used by the
chat page's guard), computed at the character level. -/
def jsTrim (s : String) : String :=
  ⟨trimChars s.data⟩

/-- UTF-8 bytes of a string, as produced by TextEncoder.encode. -/
def utf8Encode (s : String) : List UInt8 :=
  s.toUTF8.toList

/-- One entry of the chat page's message list. -/
structure ChatMessage where
  sender : String
  text : String
deriving DecidableEq, Repr

/-- The chat page state that handleSendMessage reads and writes: the
input field, the message list, whether the room object is non-null, and
whether the connection is established. -/
structure ChatState where
  message : String
  messages : List ChatMessage
  room : Option Unit
  isConnected : Bool
deriving DecidableEq, Repr

/-- Result of one handleSendMessage call: the state afterwards and the
payload published to the room, if any, with its reliable flag. -/
structure SendOutcome where
  state : ChatState
  published : Option (List UInt8 × Bool)
deriving DecidableEq, Repr

/-- The chat page's handleSendMessage: returns immediately when the
trimmed input is empty, the room is null or the connection is not
established; otherwise appends the message to the list, publishes the
UTF-8 encoding of the input with the reliable flag, and clears the
input field. -/
def handleSendMessage (username : String) (st : ChatState) : SendOutcome :=
  if jsTrim st.message == "" || st.room.isNone || !st.isConnected then
    { state := st, published := none }
  else
    { state :=
        { st with
          messages := st.messages ++ [{ sender := username, text := st.message }]
          message := "" }
      published := some (utf8Encode st.message, true) }

/-- C10: handleSendMessage publishes nothing and leaves the message list
and input field unchanged whenever the trimmed input is empty, the room
is null, or the connection is not established; when it does publish, the
payload is the UTF-8 encoding of the input text with the reliable flag,
the message is appended to the list, and the input field is cleared. -/
theorem C10_send_message_guard (username : String) (st : ChatState) :
    ((jsTrim st.message = "" ∨ st.room = none ∨ st.isConnected = false) →
      handleSendMessage username st = ⟨st, none⟩) ∧
    (jsTrim st.message ≠ "" → st.room ≠ none → st.isConnected = true →
      (handleSendMessage username st).published =
        some (utf8Encode st.message, true) ∧
      (handleSendMessage username st).state.message = "" ∧
      (handleSendMessage username st).state.messages =
        st.messages ++ [⟨username, st.message⟩]) := by
  constructor
  · intro h
    rcases h with h | h | h <;> simp [handleSendMessage, h]
  · intro h1 h2 h3
    have hr : st.room.isNone = false := by
      rcases hx : st.room with _ | v
      · exact absurd hx h2
      · rfl
    simp [handleSendMessage, h1, hr, h3]

/-- Witness for C10 at a concrete connected state with non-blank input:
the handler publishes the UTF-8 payload reliably and clears the
input. -/
theorem C10_send_message_guard_witness :
    (handleSendMessage "alice" ⟨"Hello!", [], some (), true⟩).published =
      some (utf8Encode "Hello!", true) ∧
    (handleSendMessage "alice" ⟨"Hello!", [], some (), true⟩).state.message = "" ∧
    (handleSendMessage "alice" ⟨"Hello!", [], some (), true⟩).state.messages =
      [] ++ [⟨"alice", "Hello!"⟩] :=
  (C10_send_message_guard "alice" ⟨"Hello!", [], some (), true⟩).2
    (by decide) (by decide) rfl

end ConvoFlow
